import Mathlib

/-!
# Verification of the poezio data-forms core (`src/data_forms.py`)

Shallow embedding of the focus/navigation state machine and the per-field-type
input widget protocol of `data_forms.py`.  Rendering (curses calls, colors,
`refresh`) and the external `windows`/`tabs`/sleekxmpp collaborators are out of
scope, exactly as the spec's §1 declares them external; only the state visible
through fields, widgets and the focus index is modelled.  Python operations
that can raise (`IndexError` on out-of-range list indexing, `TypeError` on an
arity mismatch) are modelled with `Option`: `none` means the call raises.
-/

namespace DataForms

/-- The value held by a form field: Python values flowing through
`getValue`/`setValue`/`setAnswer` are booleans, strings, lists of strings, or
absent (`None`). -/
inductive FieldValue
  | vNone
  | vBool (b : Bool)
  | vStr (s : String)
  | vList (l : List String)
deriving DecidableEq

/-- One entry of a field's option list: the `{'value': ..., 'label': ...}`
dict used by the list-single / list-multi widgets. -/
structure FOption where
  value : String
  label : String
deriving DecidableEq

/-- A data-form field as the widgets see it: typed, labelled value holder with
an optional option list.  `answer` records the value committed by `setAnswer`
(absent until a reply happens). -/
structure Field where
  name : String
  ftype : String
  label : String
  instructions : String
  value : FieldValue
  options : List FOption
  answer : Option FieldValue
deriving DecidableEq

/-- Python truthiness of a field value, as used by `bool(field.getValue())` in
`BooleanWin.__init__`. -/
def pyTruthy : FieldValue → Bool
  | .vNone => false
  | .vBool b => b
  | .vStr s => s ≠ ""
  | .vList l => l ≠ []

/-- Python `x in s` substring test for strings. -/
def pyStrIn (x s : String) : Bool :=
  x = "" || (s.splitOn x).length > 1

/-- Python membership `x in v` against a field value, as used by
`ListMultiWin.__init__` (`option['value'] in values`): list membership for a
list value, substring for a string value, false otherwise. -/
def pyInValue (x : String) (v : FieldValue) : Bool
  := match v with
  | .vList l => l.contains x
  | .vStr s => pyStrIn x s
  | _ => false

/-- Python `field.getValue() == option['value']` comparison against an option's
string value (`ListSingleWin.__init__`): only a string value can compare
equal. -/
def valueEqStr (v : FieldValue) (t : String) : Bool
  := match v with
  | .vStr s => s = t
  | _ => false

/-- The transient state of one input widget.  One constructor per concrete
`FieldInput` subclass of the source (`TextPrivateWin` shares `TextSingleWin`'s
state machine; only its masked rendering differs, which is out of scope). -/
inductive Widget
  | dummy
  | boolean (lastKey : String) (value : Bool)
  | listMulti (options : List (FOption × Bool)) (valPos : Nat)
  | listSingle (options : List FOption) (valPos : Nat)
  | textSingle (text : String) (pos : Nat)
deriving DecidableEq

/-- The `is_dummy` predicate: true only for `DummyInput` (the `fixed` type); the
`FieldInput` base class default is false. -/
def Widget.isDummy : Widget → Bool
  | .dummy => true
  | _ => false

/-- Embeds `BooleanWin.__init__`: `last_key = 'KEY_RIGHT'`,
`value = bool(field.getValue())`. -/
def mkBooleanWin (f : Field) : Widget :=
  .boolean "KEY_RIGHT" (pyTruthy f.value)

/-- Embeds `ListMultiWin.__init__`: pairs each option with
`option['value'] in values`, cursor `val_pos = 0`. -/
def mkListMultiWin (f : Field) : Widget :=
  .listMulti (f.options.map (fun o => (o, pyInValue o.value f.value))) 0

/-- The `for i, option in enumerate(self.options)` loop of
`ListSingleWin.__init__`: the cursor is the last index whose option value
equals the field value, else 0. -/
def lsInitPos (f : Field) : Nat :=
  f.options.enum.foldl (fun pos p => if valueEqStr f.value p.2.value then p.1 else pos) 0

/-- Embeds `ListSingleWin.__init__`: options copied from the field, cursor at the
matching option (default 0). -/
def mkListSingleWin (f : Field) : Widget :=
  .listSingle f.options (lsInitPos f)

/-- Embeds `TextSingleWin.__init__`: text seeded from the field's value when it is a
string, else empty; cursor at end of text. -/
def mkTextSingleWin (f : Field) : Widget :=
  .textSingle (match f.value with | .vStr s => s | _ => "") (match f.value with | .vStr s => s.length | _ => 0)

/-- The `option = self.options[self.val_pos]` access performed by
`ListMultiWin.refresh` (line 183), which runs at the end of every mutating
branch of `ListMultiWin.do_command`: the drawing calls themselves are out of
scope, but this plain list indexing raises `IndexError` whenever the cursor
is out of range, in particular on an empty option list. -/
def lmRefresh (opts : List (FOption × Bool)) (pos : Nat) : Option Widget :=
  match opts[pos]? with
  | none => none
  | some _ => some (.listMulti opts pos)

/-- The `option = self.options[self.val_pos]['label']` access performed by
`ListSingleWin.refresh` (line 226), which runs at the end of every mutating
branch of `ListSingleWin.do_command`; raises `IndexError` exactly as
`lmRefresh` does. -/
def lsRefresh (opts : List FOption) (pos : Nat) : Option Widget :=
  match opts[pos]? with
  | none => none
  | some _ => some (.listSingle opts pos)

/-- Embeds `do_command` of each widget, state part plus the state-visible
error path of the trailing `self.refresh()` (the drawing calls are rendering
and out of scope, but the refresh of the two list widgets re-indexes the
option list, so with an empty option list even a left/right key raises).
`none` models a raised exception:
* `DummyInput.do_command` is declared without a `key` parameter, so the
  `do_command(key)` call made by `FormWin.on_input` raises `TypeError`;
* the space branch of `ListMultiWin.do_command` indexes
  `self.options[self.val_pos]` (line 170), an `IndexError` when the option
  list is empty;
* the left/right/space branches of the two list widgets end in `refresh`,
  whose option access (lines 183/226) raises `IndexError` on an empty
  option list; unrecognized keys return before the refresh and stay
  raise-free.
`BooleanWin.refresh` and `DummyInput.refresh` touch no widget state and
cannot raise in this model. -/
def doCommand : Widget → String → Option Widget
  | .dummy, _ => none
  | .boolean lk v, key =>
      if key = "KEY_LEFT" ∨ key = "KEY_RIGHT" then some (.boolean key (!v))
      else some (.boolean lk v)
  | .listMulti opts pos, key =>
      if key = "KEY_LEFT" then
        lmRefresh opts (if pos > 0 then pos - 1 else pos)
      else if key = "KEY_RIGHT" then
        lmRefresh opts (if pos + 1 < opts.length then pos + 1 else pos)
      else if key = " " then
        match opts[pos]? with
        | none => none
        | some p => lmRefresh (opts.set pos (p.1, !p.2)) pos
      else some (.listMulti opts pos)
  | .listSingle opts pos, key =>
      if key = "KEY_LEFT" then
        lsRefresh opts (if pos > 0 then pos - 1 else pos)
      else if key = "KEY_RIGHT" then
        lsRefresh opts (if pos + 1 < opts.length then pos + 1 else pos)
      else some (.listSingle opts pos)
  | .textSingle t p, _ => some (.textSingle t p)

/-- Embeds `reply` of each widget.  `none` models a raised exception:
* `DummyInput` inherits `FieldInput.reply`, which raises
  `NotImplementedError` (never called by `FormWin.reply`, which skips
  dummies);
* `ListSingleWin.reply` indexes `self.options[self.val_pos]`, an `IndexError`
  when the cursor is out of range (in particular on an empty option list).
The text-editing of `TextSingleWin` is delegated to the external
`windows.Input`; `get_text()` returns the buffer modelled in the widget. -/
def replyW : Widget → Field → Option Field
  | .dummy, _ => none
  | .boolean _ v, f => some { f with label := "", answer := some (.vBool v) }
  | .listMulti opts _, f =>
      some { f with
             label := ""
             options := []
             answer := some (.vList ((opts.filter (fun p => p.2)).map (fun p => p.1.value))) }
  | .listSingle opts pos, f =>
      match opts[pos]? with
      | none => none
      | some o => some { f with label := "", options := [], answer := some (.vStr o.value) }
  | .textSingle t _, f => some { f with label := "", answer := some (.vStr t) }

/-- The `{'label': ..., 'instructions': ..., 'input': ...}` dict appended to
`FormWin.inputs` for each non-hidden field. -/
structure Entry where
  label : String
  instructions : String
  widget : Widget
deriving DecidableEq

/-- The field types with an entry in `FormWin.input_classes`. -/
def recognizedTypes : List String :=
  ["boolean", "fixed", "jid-single", "list-multi", "list-single", "text-private", "text-single"]

/-- Display coercion for the `fixed` case `label = field.getValue()` (the
label is only ever rendered; non-string values are out of rendering scope). -/
def fvToLabel : FieldValue → String
  | .vStr s => s
  | _ => ""

/-- The per-field body of the `FormWin.__init__` loop for a non-hidden field:
picks the widget class from `input_classes`; on a `KeyError` (unrecognized
type) the bare `except:` runs `field.setValue(field['type'])` and falls back
to `TextSingleWin`.  Returns the (possibly mutated) field together with the
constructed entry. -/
def mkEntry (f : Field) : Field × Entry :=
  if recognizedTypes.contains f.ftype then
    let w : Widget :=
      match f.ftype with
      | "boolean" => mkBooleanWin f
      | "fixed" => Widget.dummy
      | "list-multi" => mkListMultiWin f
      | "list-single" => mkListSingleWin f
      | _ => mkTextSingleWin f
    let label := if f.ftype = "fixed" then fvToLabel f.value else f.label
    (f, ⟨label, f.instructions, w⟩)
  else
    let f' := { f with value := FieldValue.vStr f.ftype }
    (f', ⟨f'.label, f'.instructions, mkTextSingleWin f'⟩)

/-- The `FormWin.__init__` loop over `self._form.getFields()`: hidden fields
are skipped (`continue`) and keep no entry; every other field gets an entry.
The result keeps the fields in form order, pairing each with its entry (or
`none` for hidden) so that the aliasing between the form's field list and the
widgets' `_field` references stays explicit. -/
def buildEntries : List Field → List (Field × Option Entry)
  | [] => []
  | f :: fs =>
      if f.ftype = "hidden" then (f, none) :: buildEntries fs
      else
        let p := mkEntry f
        (p.1, some p.2) :: buildEntries fs

/-- Embeds the `FormWin.__init__` top level: build the entries and set
`current_input = 0` (no inertness correction of any kind). -/
def mkFormWin (fields : List Field) : List (Field × Option Entry) × Nat :=
  (buildEntries fields, 0)

/-- The widgets of `FormWin.inputs`, in focus order (hidden fields have no
entry). -/
def widgetsOf (es : List (Field × Option Entry)) : List Widget :=
  (es.filterMap (fun p => p.2)).map Entry.widget

/-- Embeds `FormWin.on_input`: no-op on an empty input list, else
`self.inputs[self.current_input]['input'].do_command(key)`.  `none` models a
raised exception (out-of-range focus index, or the `do_command` call itself
raising). -/
def formWinOnInput (inputs : List Widget) (cur : Nat) (key : String) : Option (List Widget) :=
  if inputs.isEmpty then some inputs
  else
    match inputs[cur]? with
    | none => none
    | some w => (doCommand w key).map (fun w' => inputs.set cur w')

/-- The `is_dummy` flag of the widget at an index, false when the index is out of
range; convenient for stating navigation properties. -/
def dummyAt (inputs : List Widget) (k : Nat) : Bool :=
  match inputs[k]? with
  | some w => w.isDummy
  | none => false

/-- The scan loop of `FormWin.go_to_next_input`:
`while self.current_input+jump != len(self.inputs) - 1 and
self.inputs[self.current_input+jump]['input'].is_dummy(): jump += 1`.
`i` is `current_input + jump`; the result is the final value of
`current_input + jump`.  `fuel` only bounds the recursion (structural
recursion keeps every definition executable); `nextScanAux_some` below shows
that the fuel used by `nextScan` is never exhausted, so the `fuel = 0` branch
is unreachable there.  `none` models an `IndexError` on the list access. -/
def nextScanAux (inputs : List Widget) : Nat → Nat → Option Nat
  | i, 0 =>
      if i = inputs.length - 1 then some i
      else
        match inputs[i]? with
        | none => none
        | some w => if w.isDummy then none else some i
  | i, fuel + 1 =>
      if i = inputs.length - 1 then some i
      else
        match inputs[i]? with
        | none => none
        | some w => if w.isDummy then nextScanAux inputs (i + 1) fuel else some i

/-- The scan of `go_to_next_input`, started at `current_input + 1` with
enough fuel for the whole list. -/
def nextScan (inputs : List Widget) (i : Nat) : Option Nat :=
  nextScanAux inputs i inputs.length

/-- Embeds `FormWin.go_to_next_input`, state part only (the `set_color` calls are
rendering; their list accesses are still modelled, since they can raise).
Returns the new `current_input`; `none` models a raised `IndexError`.
Mirrors the source line by line: early return on an empty list or when
already at the last index; increment; scan forward; if the scanned-to widget
is still a dummy, return with `current_input` left at the incremented
position; otherwise commit the scanned-to index. -/
def goToNextInput (inputs : List Widget) (cur : Nat) : Option Nat :=
  if inputs.isEmpty then some cur
  else if cur = inputs.length - 1 then some cur
  else
    match inputs[cur]? with
    | none => none
    | some _ =>
        match nextScan inputs (cur + 1) with
        | none => none
        | some i =>
            match inputs[i]? with
            | none => none
            | some w => if w.isDummy then some (cur + 1) else some i

/-- The scan loop of `FormWin.go_to_previous_input`:
`while self.current_input-jump > 0 and
self.inputs[self.current_input+jump]['input'].is_dummy(): jump += 1`.
Note the source guards on `current_input - jump` but indexes with
`current_input + jump`; the embedding reproduces this exactly.  `cur1` is the
already-decremented `current_input`; the result is the final `jump`.  `none`
models an `IndexError` on the in-loop list access; the fuel is never
exhausted when called with `fuel = cur1` (the guard stops once
`jump = cur1`). -/
def prevScanAux (inputs : List Widget) (cur1 : Nat) : Nat → Nat → Option Nat
  | j, 0 =>
      if cur1 - j = 0 then some j
      else
        match inputs[cur1 + j]? with
        | none => none
        | some w => if w.isDummy then none else some j
  | j, fuel + 1 =>
      if cur1 - j = 0 then some j
      else
        match inputs[cur1 + j]? with
        | none => none
        | some w => if w.isDummy then prevScanAux inputs cur1 (j + 1) fuel else some j

/-- The scan of `go_to_previous_input`, started at `jump = 0`. -/
def prevScan (inputs : List Widget) (cur1 : Nat) : Option Nat :=
  prevScanAux inputs cur1 0 cur1

/-- Embeds `FormWin.go_to_previous_input`, state part only.  Early return on an
empty list or at index 0; decrement; run the (forward-indexing) scan; if the
widget at `current_input + jump` is a dummy, return with `current_input` left
at the decremented position; otherwise subtract `jump`.  The final
`self.inputs[self.current_input+jump]` access can be out of range (e.g. two
trailing dummies), modelled by `none` = `IndexError`. -/
def goToPreviousInput (inputs : List Widget) (cur : Nat) : Option Nat :=
  if inputs.isEmpty then some cur
  else if cur = 0 then some cur
  else
    match inputs[cur]? with
    | none => none
    | some _ =>
        let cur1 := cur - 1
        match prevScan inputs cur1 with
        | none => none
        | some j =>
            match inputs[cur1 + j]? with
            | none => none
            | some w => if w.isDummy then some cur1 else some (cur1 - j)

/-- The state a `DataFormsTab`/`FormWin` pair holds over the form: the form's
own `title` and `instructions` attributes and the ordered field list, each
field paired with its `FormWin` entry (`none` for hidden fields, which have
no entry).  Pairing keeps the aliasing of the Python objects explicit: the
widget's `_field` is the same object as the form's field. -/
structure FormState where
  title : String
  instructions : String
  entries : List (Field × Option Entry)
deriving DecidableEq

/-- A callback invocation observed by the caller: `self._on_cancel(...)` or
`self._on_send(...)`, with the field set it receives. -/
inductive CallbackCall
  | onCancel (fields : List Field)
  | onSend (fields : List Field)
deriving DecidableEq

/-- The `for inp in self.inputs` loop of `FormWin.reply`: skip dummies, call
`reply()` on the rest.  Hidden fields (no entry) are not in `self.inputs` and
are untouched.  `none` models an exception raised by some widget's
`reply`. -/
def replyEntries : List (Field × Option Entry) → Option (List (Field × Option Entry))
  | [] => some []
  | (f, none) :: rest => (replyEntries rest).map (fun r => (f, none) :: r)
  | (f, some e) :: rest =>
      if e.widget.isDummy then (replyEntries rest).map (fun r => (f, some e) :: r)
      else
        match replyW e.widget f with
        | none => none
        | some f' => (replyEntries rest).map (fun r => (f', some e) :: r)

/-- Embeds `DataFormsTab.on_send`: run `FormWin.reply` (the widget pass, then
`self._form['title'] = ''` and `self._form['instructions'] = ''`), then call
`self._on_send(self._form)` with the updated field set.  The preceding
`self._form.reply()` call is a method of the external sleekxmpp form object
and does not touch the state modelled here. -/
def onSendCmd (st : FormState) : Option (FormState × CallbackCall) :=
  match replyEntries st.entries with
  | none => none
  | some es =>
      let st' : FormState := { title := "", instructions := "", entries := es }
      some (st', .onSend (st'.entries.map Prod.fst))

/-- Embeds `DataFormsTab.on_cancel`: `self._on_cancel(self._form)` and nothing
else. -/
def onCancelCmd (st : FormState) : FormState × CallbackCall :=
  (st, .onCancel (st.entries.map Prod.fst))

/-- How one position of the field list looks after the submit widget pass:
hidden fields and dummy-widget fields unchanged, every other field replaced
by its widget's `reply`. -/
def relEntry : Option (Field × Option Entry) → Option (Field × Option Entry) → Prop
  | none, b => b = none
  | some (f, none), b => b = some (f, none)
  | some (f, some e), b =>
      if e.widget.isDummy then b = some (f, some e)
      else ∃ f', replyW e.widget f = some f' ∧ b = some (f', some e)

/-- Fixture: a plain text-single field. -/
def exField : Field :=
  { name := "f1", ftype := "text-single", label := "Label", instructions := "Instr", value := .vStr "hello", options := [], answer := none }

/-- Fixture: a list field with an empty option list (malformed per the data
model). -/
def exEmptyField : Field :=
  { name := "f2", ftype := "list-multi", label := "L", instructions := "", value := .vNone, options := [], answer := none }

/-- Fixture: a `fixed` (section label) field. -/
def exFixedField : Field :=
  { name := "s", ftype := "fixed", label := "", instructions := "", value := .vStr "Section", options := [], answer := none }

/-- Fixture: a boolean field. -/
def exBoolField : Field :=
  { name := "b", ftype := "boolean", label := "B?", instructions := "", value := .vBool false, options := [], answer := none }

/-- Fixture: a hidden field. -/
def exHiddenField : Field :=
  { name := "h", ftype := "hidden", label := "HL", instructions := "", value := .vStr "secret", options := [], answer := none }

/-- Fixture: a field with an unrecognized type. -/
def exCustomField : Field :=
  { name := "c", ftype := "custom-x", label := "C", instructions := "", value := .vNone, options := [], answer := none }

/-- Fixture: the §8 three-field form (hidden, fixed label, text-single
seeded with "hello"). -/
def exState : FormState :=
  { title := "T", instructions := "I", entries := buildEntries [exHiddenField, exFixedField, exField] }

/-- Fixture: the result of submitting `exState` (defaulted if submit
raises; `c5_submit_witness` shows it does not). -/
def exSent : FormState × CallbackCall :=
  (onSendCmd exState).getD ({ title := "", instructions := "", entries := [] }, .onCancel [])



theorem dummyAt_eq_isDummy (inputs : List Widget) (k : Nat) (w : Widget)
    (h : inputs[k]? = some w) : dummyAt inputs k = w.isDummy := by
  simp [dummyAt, h]

theorem getElem?_some_of_lt (inputs : List Widget) (k : Nat) (h : k < inputs.length) :
    ∃ w, inputs[k]? = some w :=
  ⟨inputs.get ⟨k, h⟩, by rw [List.getElem?_eq_getElem h, List.get_eq_getElem]⟩

/-- Full characterization of the forward scan of `go_to_next_input`: with
enough fuel it succeeds, stops no later than the last index, skips only
dummies, and stops on a dummy only at the last index. -/
theorem nextScanAux_spec (inputs : List Widget) :
    ∀ fuel i, i ≤ inputs.length - 1 → inputs.length - 1 - i ≤ fuel →
    ∃ r, nextScanAux inputs i fuel = some r ∧ i ≤ r ∧ r ≤ inputs.length - 1 ∧
      (∀ k, i ≤ k → k < r → dummyAt inputs k = true) ∧
      (dummyAt inputs r = true → r = inputs.length - 1) := by
  intro fuel
  induction fuel with
  | zero =>
      intro i hi hf
      have hie : i = inputs.length - 1 := by omega
      refine ⟨i, ?_, le_refl i, hi, fun k h1 h2 => absurd h2 (by omega), fun _ => hie⟩
      rw [nextScanAux, if_pos hie]
  | succ fuel ih =>
      intro i hi hf
      by_cases hie : i = inputs.length - 1
      · refine ⟨i, ?_, le_refl i, hi, fun k h1 h2 => absurd h2 (by omega), fun _ => hie⟩
        rw [nextScanAux, if_pos hie]
      · have hilt : i < inputs.length - 1 := lt_of_le_of_ne hi hie
        have hiltl : i < inputs.length := by omega
        obtain ⟨w, hw⟩ := getElem?_some_of_lt inputs i hiltl
        cases hdum : w.isDummy
        · refine ⟨i, ?_, le_refl i, hi, fun k h1 h2 => absurd h2 (by omega), ?_⟩
          · rw [nextScanAux, if_neg hie, hw]
            simp [hdum]
          · intro hcon
            rw [dummyAt_eq_isDummy inputs i _ hw, hdum] at hcon
            cases hcon
        · obtain ⟨r, hr, hr1, hr2, hall, hlast⟩ := ih (i + 1) (by omega) (by omega)
          refine ⟨r, ?_, by omega, hr2, ?_, hlast⟩
          · rw [nextScanAux, if_neg hie, hw]
            simpa [hdum] using hr
          · intro k h1 h2
            rcases Nat.eq_or_lt_of_le h1 with heq | hlt
            · rw [← heq, dummyAt_eq_isDummy inputs i _ hw, hdum]
            · exact hall k hlt h2

theorem isEmpty_false_of_pos (inputs : List Widget) (h : 0 < inputs.length) :
    inputs.isEmpty = false := by
  cases inputs with
  | nil => simp at h
  | cons a l => rfl

theorem nextScanAux_last (inputs : List Widget) (i fuel : Nat)
    (h : i = inputs.length - 1) : nextScanAux inputs i fuel = some i := by
  cases fuel <;> rw [nextScanAux, if_pos h]

theorem nextScanAux_nondummy (inputs : List Widget) (i fuel : Nat) (w : Widget)
    (h : ¬ i = inputs.length - 1) (hw : inputs[i]? = some w) (hd : w.isDummy = false) :
    nextScanAux inputs i fuel = some i := by
  cases fuel <;> (rw [nextScanAux, if_neg h, hw]; simp [hd])

theorem nextScanAux_dummy (inputs : List Widget) (i fuel : Nat) (w : Widget)
    (h : ¬ i = inputs.length - 1) (hw : inputs[i]? = some w) (hd : w.isDummy = true) :
    nextScanAux inputs i (fuel + 1) = nextScanAux inputs (i + 1) fuel := by
  rw [nextScanAux, if_neg h, hw]
  simp [hd]

theorem prevScanAux_stop (inputs : List Widget) (cur1 j fuel : Nat)
    (h : cur1 - j = 0) : prevScanAux inputs cur1 j fuel = some j := by
  cases fuel <;> rw [prevScanAux, if_pos h]

theorem prevScanAux_nondummy (inputs : List Widget) (cur1 j fuel : Nat) (w : Widget)
    (h : ¬ cur1 - j = 0) (hw : inputs[cur1 + j]? = some w) (hd : w.isDummy = false) :
    prevScanAux inputs cur1 j fuel = some j := by
  cases fuel <;> (rw [prevScanAux, if_neg h, hw]; simp [hd])

theorem prevScanAux_dummy (inputs : List Widget) (cur1 j fuel : Nat) (w : Widget)
    (h : ¬ cur1 - j = 0) (hw : inputs[cur1 + j]? = some w) (hd : w.isDummy = true) :
    prevScanAux inputs cur1 j (fuel + 1) = prevScanAux inputs cur1 (j + 1) fuel := by
  rw [prevScanAux, if_neg h, hw]
  simp [hd]

/-- Retreating from `cur + 1` when the widget at `cur` is non-inert lands on
`cur`. -/
theorem retreat_succ (inputs : List Widget) (cur : Nat)
    (h : dummyAt inputs cur = false) (h2 : cur + 1 < inputs.length) :
    goToPreviousInput inputs (cur + 1) = some cur := by
  have hemp : inputs.isEmpty = false := isEmpty_false_of_pos inputs (by omega)
  obtain ⟨wc, hwc⟩ := getElem?_some_of_lt inputs (cur + 1) h2
  obtain ⟨w0, hw0⟩ := getElem?_some_of_lt inputs cur (by omega)
  have hd0 : w0.isDummy = false := by
    rw [← dummyAt_eq_isDummy inputs cur w0 hw0]; exact h
  have hps : prevScan inputs cur = some 0 := by
    rw [prevScan]
    by_cases hc0 : cur = 0
    · subst hc0; exact prevScanAux_stop inputs 0 0 0 rfl
    · exact prevScanAux_nondummy inputs cur 0 cur w0 (by omega) (by exact hw0) hd0
  simp [goToPreviousInput, hemp, hwc, hps, hw0, hd0]

/-- Retreating from `cur + 2` over a single inert widget at `cur + 1` lands
on `cur` (the forward-indexed scan guard happens to compensate). -/
theorem retreat_skip_one (inputs : List Widget) (cur : Nat)
    (hd : dummyAt inputs (cur + 1) = true) (hq : dummyAt inputs (cur + 2) = false)
    (h2 : cur + 2 < inputs.length) :
    goToPreviousInput inputs (cur + 2) = some cur := by
  have hemp : inputs.isEmpty = false := isEmpty_false_of_pos inputs (by omega)
  obtain ⟨w2, hw2⟩ := getElem?_some_of_lt inputs (cur + 2) h2
  have hd2 : w2.isDummy = false := by
    rw [← dummyAt_eq_isDummy inputs (cur + 2) w2 hw2]; exact hq
  obtain ⟨w1, hw1⟩ := getElem?_some_of_lt inputs (cur + 1) (by omega)
  have hd1 : w1.isDummy = true := by
    rw [← dummyAt_eq_isDummy inputs (cur + 1) w1 hw1]; exact hd
  have hps : prevScan inputs (cur + 1) = some 1 := by
    rw [prevScan]
    rw [prevScanAux_dummy inputs (cur + 1) 0 cur w1 (by omega) (by exact hw1) hd1]
    by_cases hc : cur = 0
    · subst hc; exact prevScanAux_stop inputs 1 (0 + 1) 0 rfl
    · exact prevScanAux_nondummy inputs (cur + 1) (0 + 1) cur w2 (by omega) (by exact hw2) hd2
  have ha1 : cur + 2 - 1 = cur + 1 := by omega
  have ha2 : cur + 1 + 1 = cur + 2 := by omega
  simp [goToPreviousInput, hemp, hw2, ha1, ha2, hps, hd2]

/-- Advancing onto an immediately following non-inert widget. -/
theorem advance_to_next (inputs : List Widget) (cur : Nat)
    (h1 : cur + 1 < inputs.length) (hnd : dummyAt inputs (cur + 1) = false) :
    goToNextInput inputs cur = some (cur + 1) := by
  have hemp : inputs.isEmpty = false := isEmpty_false_of_pos inputs (by omega)
  have hcne : ¬ cur = inputs.length - 1 := by omega
  obtain ⟨w0, hw0⟩ := getElem?_some_of_lt inputs cur (by omega)
  obtain ⟨w1, hw1⟩ := getElem?_some_of_lt inputs (cur + 1) h1
  have hd1 : w1.isDummy = false := by
    rw [← dummyAt_eq_isDummy inputs (cur + 1) w1 hw1]; exact hnd
  have hscan : nextScan inputs (cur + 1) = some (cur + 1) := by
    rw [nextScan]
    by_cases he : cur + 1 = inputs.length - 1
    · exact nextScanAux_last inputs (cur + 1) inputs.length he
    · exact nextScanAux_nondummy inputs (cur + 1) inputs.length w1 he hw1 hd1
  simp [goToNextInput, hemp, hcne, hw0, hscan, hw1, hd1]

/-- Advancing over a single inert widget onto the next non-inert one. -/
theorem advance_skip_one (inputs : List Widget) (cur : Nat)
    (h2 : cur + 2 < inputs.length) (hd : dummyAt inputs (cur + 1) = true)
    (hq : dummyAt inputs (cur + 2) = false) :
    goToNextInput inputs cur = some (cur + 2) := by
  have hemp : inputs.isEmpty = false := isEmpty_false_of_pos inputs (by omega)
  have hcne : ¬ cur = inputs.length - 1 := by omega
  obtain ⟨w0, hw0⟩ := getElem?_some_of_lt inputs cur (by omega)
  obtain ⟨w1, hw1⟩ := getElem?_some_of_lt inputs (cur + 1) (by omega)
  have hd1 : w1.isDummy = true := by
    rw [← dummyAt_eq_isDummy inputs (cur + 1) w1 hw1]; exact hd
  obtain ⟨w2, hw2⟩ := getElem?_some_of_lt inputs (cur + 2) h2
  have hd2 : w2.isDummy = false := by
    rw [← dummyAt_eq_isDummy inputs (cur + 2) w2 hw2]; exact hq
  obtain ⟨m, hm⟩ : ∃ m, inputs.length = m + 1 := ⟨inputs.length - 1, by omega⟩
  have hscan : nextScan inputs (cur + 1) = some (cur + 2) := by
    rw [nextScan, hm]
    rw [nextScanAux_dummy inputs (cur + 1) m w1 (by omega) hw1 hd1]
    by_cases he : cur + 2 = inputs.length - 1
    · exact nextScanAux_last inputs (cur + 1 + 1) m (by omega)
    · exact nextScanAux_nondummy inputs (cur + 1 + 1) m w2 (by omega) (by exact hw2) hd2
  simp [goToNextInput, hemp, hcne, hw0, hscan, hw2, hd2]

/-- When everything strictly after `cur` is inert, the advance scan aborts
and leaves the focus at `cur + 1`. -/
theorem advance_abort (inputs : List Widget) (cur : Nat)
    (h1 : cur + 1 < inputs.length)
    (hall : ∀ k, cur < k → k < inputs.length → dummyAt inputs k = true) :
    goToNextInput inputs cur = some (cur + 1) := by
  have hemp : inputs.isEmpty = false := isEmpty_false_of_pos inputs (by omega)
  have hcne : ¬ cur = inputs.length - 1 := by omega
  obtain ⟨w0, hw0⟩ := getElem?_some_of_lt inputs cur (by omega)
  obtain ⟨r, hr, hr1, hr2, hall2, hlast⟩ :=
    nextScanAux_spec inputs inputs.length (cur + 1) (by omega) (by omega)
  have hrl : r < inputs.length := by omega
  obtain ⟨wr, hwr⟩ := getElem?_some_of_lt inputs r hrl
  have hdr : wr.isDummy = true := by
    rw [← dummyAt_eq_isDummy inputs r wr hwr]
    exact hall r (by omega) hrl
  have hscan : nextScan inputs (cur + 1) = some r := by
    rw [nextScan]; exact hr
  simp [goToNextInput, hemp, hcne, hw0, hscan, hwr, hdr]

/-- C2 (amended): advance followed by retreat restores the focus index
provided the list is a singleton, or the focus is not at the last index and
one of: every later widget is inert (the advance aborts at `cur + 1`), the
next widget is non-inert, or exactly one inert widget separates the focus
from the next non-inert widget.  As stated the claim fails: with two inert
widgets in between retreat overshoots, and from the last index of a
multi-widget list advance is a no-op while retreat still moves. -/
theorem c2_advance_retreat_roundtrip (inputs : List Widget) (cur : Nat)
    (hcur : cur < inputs.length) (hnd : dummyAt inputs cur = false)
    (hcase : inputs.length = 1 ∨ (cur + 1 < inputs.length ∧
      ((∀ k, cur < k → k < inputs.length → dummyAt inputs k = true)
       ∨ dummyAt inputs (cur + 1) = false
       ∨ (cur + 2 < inputs.length ∧ dummyAt inputs (cur + 1) = true ∧
          dummyAt inputs (cur + 2) = false)))) :
    ∃ r, goToNextInput inputs cur = some r ∧ goToPreviousInput inputs r = some cur := by
  rcases hcase with hone | ⟨hlt, hsub⟩
  · have hc0 : cur = 0 := by omega
    subst hc0
    have hemp : inputs.isEmpty = false := isEmpty_false_of_pos inputs (by omega)
    refine ⟨0, ?_, ?_⟩
    · simp [goToNextInput, hemp, hone]
    · simp [goToPreviousInput, hemp]
  · rcases hsub with hall | hnd1 | ⟨h2, hd1, hd2⟩
    · exact ⟨cur + 1, advance_abort inputs cur hlt hall, retreat_succ inputs cur hnd hlt⟩
    · exact ⟨cur + 1, advance_to_next inputs cur hlt hnd1, retreat_succ inputs cur hnd hlt⟩
    · exact ⟨cur + 2, advance_skip_one inputs cur h2 hd1 hd2,
        retreat_skip_one inputs cur hd1 hd2 h2⟩

/-- Witness for the amended C2 at `[w, d, w]`, focus 0: advance lands on 2,
retreat returns to 0. -/
theorem c2_advance_retreat_roundtrip_witness :
    (0 < ([Widget.boolean "k" true, Widget.dummy, Widget.boolean "k" false]).length ∧
      dummyAt [Widget.boolean "k" true, Widget.dummy, Widget.boolean "k" false] 0 = false) ∧
    ∃ r, goToNextInput [Widget.boolean "k" true, Widget.dummy, Widget.boolean "k" false] 0 = some r ∧
      goToPreviousInput [Widget.boolean "k" true, Widget.dummy, Widget.boolean "k" false] r = some 0 :=
  ⟨⟨by decide, by decide⟩,
   c2_advance_retreat_roundtrip [Widget.boolean "k" true, Widget.dummy, Widget.boolean "k" false]
     0 (by decide) (by decide)
     (Or.inr ⟨by decide, Or.inr (Or.inr ⟨by decide, by decide, by decide⟩)⟩)⟩

/-- C1 (amended): `go_to_next_input` lands on a non-inert widget whenever a
non-inert widget exists strictly after the pre-call focus index (it raises no
exception and commits a non-dummy index).  The unamended invariant fails at
construction: `FormWin.__init__` performs no correction, and
`go_to_previous_input` can also rest on an inert widget. -/
theorem c1_advance_lands_non_inert (inputs : List Widget) (cur j : Nat)
    (h1 : cur < j) (h2 : j < inputs.length) (h3 : dummyAt inputs j = false) :
    ∃ r w, goToNextInput inputs cur = some r ∧ inputs[r]? = some w ∧
      w.isDummy = false := by
  have hne : inputs ≠ [] := List.ne_nil_of_length_pos (by omega)
  have hemp : inputs.isEmpty = false := by
    cases inputs with
    | nil => exact absurd rfl hne
    | cons a l => rfl
  have hcurlt : cur < inputs.length - 1 := by omega
  have hcne : ¬ cur = inputs.length - 1 := by omega
  obtain ⟨wc, hwc⟩ := getElem?_some_of_lt inputs cur (by omega)
  obtain ⟨r, hr, hr1, hr2, hall, hlast⟩ :=
    nextScanAux_spec inputs inputs.length (cur + 1) (by omega) (by omega)
  have hrl : r < inputs.length := by omega
  obtain ⟨wr, hwr⟩ := getElem?_some_of_lt inputs r hrl
  have hdr : wr.isDummy = false := by
    cases hdum : wr.isDummy
    · rfl
    · exfalso
      have hda : dummyAt inputs r = true := by
        rw [dummyAt_eq_isDummy inputs r _ hwr, hdum]
      have hrlen : r = inputs.length - 1 := hlast hda
      have hjr : j ≤ r := by omega
      rcases Nat.eq_or_lt_of_le hjr with heq | hlt
      · rw [heq] at h3; rw [h3] at hda; cases hda
      · have := hall j (by omega) hlt
        rw [h3] at this; cases this
  refine ⟨r, wr, ?_, hwr, hdr⟩
  have hscan : nextScan inputs (cur + 1) = some r := by
    rw [nextScan]; exact hr
  simp [goToNextInput, hemp, hcne, hwc, hscan, hwr, hdr]

/-- Witness for the amended C1 at `[w, d, w]`, focus 0, non-inert index 2. -/
theorem c1_advance_lands_non_inert_witness :
    (0 < 2 ∧ 2 < ([Widget.boolean "k" true, Widget.dummy, Widget.boolean "k" false]).length ∧
      dummyAt [Widget.boolean "k" true, Widget.dummy, Widget.boolean "k" false] 2 = false) ∧
    ∃ r w, goToNextInput [Widget.boolean "k" true, Widget.dummy, Widget.boolean "k" false] 0 = some r ∧
      ([Widget.boolean "k" true, Widget.dummy, Widget.boolean "k" false])[r]? = some w ∧
      w.isDummy = false :=
  ⟨⟨by decide, by decide, by decide⟩,
   c1_advance_lands_non_inert [Widget.boolean "k" true, Widget.dummy, Widget.boolean "k" false]
     0 2 (by decide) (by decide) (by decide)⟩

/-- C8: cancelling invokes the `onCancel` callback with the field set while
leaving every field's value, label, options and the form's title and
instructions unchanged: `DataFormsTab.on_cancel` only calls
`self._on_cancel(self._form)` and mutates nothing. -/
theorem c8_cancel_no_mutation (st : FormState) :
    (onCancelCmd st).1 = st ∧
    (onCancelCmd st).2 = CallbackCall.onCancel (st.entries.map Prod.fst) :=
  ⟨rfl, rfl⟩

/-- C6: `ListMultiWin.reply` clears the field's option list and sets the
answer to the values of the options whose selected flag is true, in the
original option order; with selections A↦true, B↦false, C↦true the answer is
`["A", "C"]`. -/
theorem c6_list_multi_reply (opts : List (FOption × Bool)) (pos : Nat) (f : Field) :
    (∃ f', replyW (Widget.listMulti opts pos) f = some f' ∧
      f'.options = [] ∧
      f'.answer = some (.vList ((opts.filter (fun p => p.2)).map (fun p => p.1.value)))) ∧
    (∃ g, replyW (Widget.listMulti
        [(⟨"A", "la"⟩, true), (⟨"B", "lb"⟩, false), (⟨"C", "lc"⟩, true)] 0) exField = some g ∧
      g.answer = some (.vList ["A", "C"])) :=
  ⟨⟨_, rfl, rfl, rfl⟩, ⟨_, rfl, rfl⟩⟩

/-- C7: on a non-empty option list with the cursor in range,
`ListSingleWin.reply` clears the field's option list and sets the answer to
the value of the option at the cursor. -/
theorem c7_list_single_reply (opts : List FOption) (pos : Nat) (f : Field)
    (h : pos < opts.length) :
    ∃ f', replyW (Widget.listSingle opts pos) f = some f' ∧
      f'.options = [] ∧
      f'.answer = some (.vStr (opts.get ⟨pos, h⟩).value) := by
  refine ⟨{ f with label := "", options := [], answer := some (.vStr (opts.get ⟨pos, h⟩).value) }, ?_, rfl, rfl⟩
  simp [replyW, List.getElem?_eq_getElem h, List.get_eq_getElem]

/-- Witness for C7 at the §8 example: cursor at index 2 of A, B, C yields
option C's value and an empty option list. -/
theorem c7_list_single_reply_witness :
    (2 < ([⟨"A", "la"⟩, ⟨"B", "lb"⟩, ⟨"C", "lc"⟩] : List FOption).length) ∧
    ∃ f', replyW (Widget.listSingle [⟨"A", "la"⟩, ⟨"B", "lb"⟩, ⟨"C", "lc"⟩] 2) exField = some f' ∧
      f'.options = [] ∧ f'.answer = some (.vStr "C") := by
  refine ⟨by decide, ?_⟩
  simpa using c7_list_single_reply [⟨"A", "la"⟩, ⟨"B", "lb"⟩, ⟨"C", "lc"⟩] 2 exField (by decide)

/-- C10: for every non-inert widget, `reply` sets the underlying field's
label to the empty string and commits an answer. -/
theorem c10_reply_clears_label (w : Widget) (f : Field)
    (hw : w.isDummy = false) (f' : Field) (h : replyW w f = some f') :
    f'.label = "" ∧ f'.answer.isSome = true := by
  cases w with
  | dummy => simp [Widget.isDummy] at hw
  | boolean lk v =>
      simp only [replyW, Option.some.injEq] at h
      subst h; exact ⟨rfl, rfl⟩
  | listMulti opts pos =>
      simp only [replyW, Option.some.injEq] at h
      subst h; exact ⟨rfl, rfl⟩
  | listSingle opts pos =>
      simp only [replyW] at h
      cases hg : opts[pos]? with
      | none => rw [hg] at h; cases h
      | some o => rw [hg] at h; simp only [Option.some.injEq] at h; subst h; exact ⟨rfl, rfl⟩
  | textSingle t p =>
      simp only [replyW, Option.some.injEq] at h
      subst h; exact ⟨rfl, rfl⟩

/-- Witness for C10 on a boolean widget. -/
theorem c10_reply_clears_label_witness :
    ((Widget.boolean "k" true).isDummy = false) ∧
    (replyW (Widget.boolean "k" true) exField =
      some { exField with label := "", answer := some (.vBool true) }) ∧
    ({ exField with label := "", answer := some (FieldValue.vBool true) : Field }.label = ""
      ∧ ({ exField with label := "", answer := some (FieldValue.vBool true) : Field }).answer.isSome = true) :=
  ⟨rfl, rfl, c10_reply_clears_label (Widget.boolean "k" true) exField rfl _ rfl⟩

/-- C3 (code bug): `FormWin.on_input` calls
`self.inputs[self.current_input]['input'].do_command(key)`, but
`DummyInput.do_command` is declared without a `key` parameter, so when the
focused widget is a `DummyInput` (e.g. a form whose first field is of type
`fixed`) the call raises `TypeError` instead of being a no-op. -/
theorem c3_dummy_focus_key_raises :
    doCommand Widget.dummy "a" = none ∧
    formWinOnInput [Widget.dummy] 0 "a" = none ∧
    widgetsOf (mkFormWin [exFixedField, exBoolField]).1 = [Widget.dummy, Widget.boolean "KEY_RIGHT" false] ∧
    (mkFormWin [exFixedField, exBoolField]).2 = 0 ∧
    formWinOnInput (widgetsOf (mkFormWin [exFixedField, exBoolField]).1)
      (mkFormWin [exFixedField, exBoolField]).2 "a" = none := by
  decide

/-- C4 (amended): for a list field with an empty option list, construction
yields an empty selectable set, and `reply` on the empty list-multi widget
yields an empty answer without raising; but none of the claimed no-ops is
exception-free: on the empty list-multi widget left, right and space all
raise `IndexError` (space at the toggle of line 170, left/right in the
`refresh` option access of line 183), on the empty list-single widget left
and right raise `IndexError` (`refresh` option access, line 226), and
`reply` on the empty list-single widget raises `IndexError` (line 234).
Only unrecognized keys, which return before the refresh, are raise-free
no-ops. -/
theorem c4_empty_options (f : Field) (h : f.options = []) :
    mkListMultiWin f = Widget.listMulti [] 0 ∧
    mkListSingleWin f = Widget.listSingle [] 0 ∧
    doCommand (Widget.listMulti [] 0) "KEY_LEFT" = none ∧
    doCommand (Widget.listMulti [] 0) "KEY_RIGHT" = none ∧
    doCommand (Widget.listMulti [] 0) " " = none ∧
    doCommand (Widget.listSingle [] 0) "KEY_LEFT" = none ∧
    doCommand (Widget.listSingle [] 0) "KEY_RIGHT" = none ∧
    (∀ key, ¬ key = "KEY_LEFT" → ¬ key = "KEY_RIGHT" → ¬ key = " " →
      doCommand (Widget.listMulti [] 0) key = some (Widget.listMulti [] 0)) ∧
    (∀ key, ¬ key = "KEY_LEFT" → ¬ key = "KEY_RIGHT" →
      doCommand (Widget.listSingle [] 0) key = some (Widget.listSingle [] 0)) ∧
    replyW (Widget.listMulti [] 0) f = some { f with label := "", options := [], answer := some (.vList []) } ∧
    replyW (Widget.listSingle [] 0) f = none := by
  refine ⟨?_, ?_, by decide, by decide, by decide, by decide, by decide, ?_, ?_, rfl, rfl⟩
  · simp [mkListMultiWin, h]
  · simp [mkListSingleWin, lsInitPos, h]
  · intro key h1 h2 h3
    simp only [doCommand]
    rw [if_neg h1, if_neg h2, if_neg h3]
  · intro key h1 h2
    simp only [doCommand]
    rw [if_neg h1, if_neg h2]

/-- Witness for C4 at a concrete empty-options field. -/
theorem c4_empty_options_witness :
    (exEmptyField.options = []) ∧
    mkListMultiWin exEmptyField = Widget.listMulti [] 0 ∧
    doCommand (Widget.listMulti [] 0) "KEY_LEFT" = none ∧
    doCommand (Widget.listMulti [] 0) " " = none ∧
    doCommand (Widget.listSingle [] 0) "KEY_RIGHT" = none ∧
    doCommand (Widget.listSingle [] 0) "x" = some (Widget.listSingle [] 0) ∧
    replyW (Widget.listSingle [] 0) exEmptyField = none := by
  obtain ⟨h1, -, h3, -, h5, -, h7, -, h9, -, h11⟩ := c4_empty_options exEmptyField rfl
  exact ⟨rfl, h1, h3, h5, h7, h9 "x" (by decide) (by decide), h11⟩

/-- Counterexample for C4 as stated: on the widgets constructed from an
empty-options list field the left key is not a no-op but raises (`none`, the
`refresh` option access), space on list-multi raises at the toggle, and
`reply` on list-single raises rather than producing an answer. -/
theorem c4_counterexample :
    doCommand (mkListMultiWin exEmptyField) "KEY_LEFT" = none ∧
    doCommand (mkListMultiWin exEmptyField) " " = none ∧
    doCommand (mkListSingleWin exEmptyField) "KEY_RIGHT" = none ∧
    replyW (mkListSingleWin exEmptyField) exEmptyField = none := by
  decide

/-- C9: an unrecognized, non-hidden field type does not fail construction:
the field is downgraded to a `TextSingleWin` whose initial buffer is the
declared type name (the `except:` branch first stores the type name as the
field's value), and an unedited `reply` answers with that type name. -/
theorem c9_unrecognized_type (f : Field) (fs : List Field)
    (h1 : f.ftype ∉ recognizedTypes) (h2 : ¬ f.ftype = "hidden") :
    ∃ f' e, buildEntries (f :: fs) = (f', some e) :: buildEntries fs ∧
      e.widget = Widget.textSingle f.ftype f.ftype.length ∧
      ∃ f'', replyW e.widget f' = some f'' ∧ f''.answer = some (.vStr f.ftype) := by
  refine ⟨(mkEntry f).1, (mkEntry f).2, ?_, ?_, ?_⟩
  · simp only [buildEntries]
    rw [if_neg h2]
  · simp [mkEntry, h1, mkTextSingleWin]
  · refine ⟨{ f with value := .vStr f.ftype, label := "", answer := some (.vStr f.ftype) }, ?_, rfl⟩
    simp [mkEntry, h1, mkTextSingleWin, replyW]

/-- Witness for C9 at type "custom-x": buffer and answer are "custom-x". -/
theorem c9_unrecognized_type_witness :
    (exCustomField.ftype ∉ recognizedTypes) ∧
    (¬ exCustomField.ftype = "hidden") ∧
    ∃ f' e, buildEntries [exCustomField] = (f', some e) :: buildEntries [] ∧
      e.widget = Widget.textSingle "custom-x" "custom-x".length ∧
      ∃ f'', replyW e.widget f' = some f'' ∧ f''.answer = some (.vStr "custom-x") := by
  refine ⟨by decide, by decide, ?_⟩
  exact c9_unrecognized_type exCustomField [] (by decide) (by decide)

theorem mkEntry_ftype (f : Field) : (mkEntry f).1.ftype = f.ftype := by
  unfold mkEntry
  split_ifs <;> rfl

theorem buildEntries_hidden :
    ∀ fs : List Field, ∀ p ∈ buildEntries fs, p.1.ftype = "hidden" → p.2 = none := by
  intro fs
  induction fs with
  | nil => intro p hp; simp [buildEntries] at hp
  | cons f fs ih =>
      intro p hp hft
      by_cases hh : f.ftype = "hidden"
      · simp only [buildEntries, if_pos hh] at hp
        rcases List.mem_cons.mp hp with hpe | hpm
        · subst hpe; rfl
        · exact ih p hpm hft
      · simp only [buildEntries, if_neg hh] at hp
        rcases List.mem_cons.mp hp with hpe | hpm
        · exfalso
          apply hh
          rw [← mkEntry_ftype f]
          have : p.1 = (mkEntry f).1 := by rw [hpe]
          rw [← this]
          exact hft
        · exact ih p hpm hft

theorem replyEntries_rel :
    ∀ es es' : List (Field × Option Entry), replyEntries es = some es' →
      ∀ i : Nat, relEntry es[i]? es'[i]? := by
  intro es
  induction es with
  | nil =>
      intro es' h i
      simp [replyEntries] at h
      subst h
      simp [relEntry]
  | cons hd tl ih =>
      intro es' h i
      obtain ⟨f, e?⟩ := hd
      cases e? with
      | none =>
          simp only [replyEntries] at h
          cases htl : replyEntries tl with
          | none => rw [htl] at h; simp at h
          | some tl' =>
              rw [htl] at h
              have hes : (f, none) :: tl' = es' := by simpa using h
              subst hes
              cases i with
              | zero => simp [relEntry]
              | succ n => simpa using ih tl' htl n
      | some e =>
          simp only [replyEntries] at h
          by_cases hdum : e.widget.isDummy = true
          · rw [if_pos hdum] at h
            cases htl : replyEntries tl with
            | none => rw [htl] at h; simp at h
            | some tl' =>
                rw [htl] at h
                have hes : (f, some e) :: tl' = es' := by simpa using h
                subst hes
                cases i with
                | zero => simp [relEntry, hdum]
                | succ n => simpa using ih tl' htl n
          · rw [if_neg hdum] at h
            cases hrw : replyW e.widget f with
            | none => rw [hrw] at h; cases h
            | some f' =>
                rw [hrw] at h
                cases htl : replyEntries tl with
                | none => rw [htl] at h; simp at h
                | some tl' =>
                    rw [htl] at h
                    have hes : (f', some e) :: tl' = es' := by simpa using h
                    subst hes
                    cases i with
                    | zero =>
                        simp only [List.getElem?_cons_zero, relEntry, if_neg hdum]
                        exact ⟨f', hrw, rfl⟩
                    | succ n => simpa using ih tl' htl n

/-- C5: submitting runs `reply()` over the widgets in focus order skipping
exactly the inert ones (hidden fields have no widget at all and keep their
value), then clears the form's title and instructions, then hands the updated
field set to the `onSend` callback. -/
theorem c5_submit (st st' : FormState) (cb : CallbackCall)
    (h : onSendCmd st = some (st', cb)) :
    st'.title = "" ∧ st'.instructions = "" ∧
    cb = CallbackCall.onSend (st'.entries.map Prod.fst) ∧
    (∀ i : Nat, relEntry st.entries[i]? st'.entries[i]?) ∧
    (∀ fs : List Field, ∀ p ∈ buildEntries fs, p.1.ftype = "hidden" → p.2 = none) := by
  unfold onSendCmd at h
  cases hre : replyEntries st.entries with
  | none => rw [hre] at h; cases h
  | some es =>
      rw [hre] at h
      simp only [Option.some.injEq, Prod.mk.injEq] at h
      obtain ⟨h1, h2⟩ := h
      subst h1
      subst h2
      refine ⟨rfl, rfl, rfl, ?_, buildEntries_hidden⟩
      intro i
      exact replyEntries_rel st.entries es hre i

/-- Witness for C5 on the §8 form (hidden + fixed + text-single "hello"):
submit succeeds, clears title/instructions, and relates every position. -/
theorem c5_submit_witness :
    onSendCmd exState = some (exSent.1, exSent.2) ∧
    exSent.1.title = "" ∧ exSent.1.instructions = "" ∧
    exSent.2 = CallbackCall.onSend (exSent.1.entries.map Prod.fst) ∧
    relEntry exState.entries[0]? exSent.1.entries[0]? ∧
    relEntry exState.entries[2]? exSent.1.entries[2]? := by
  have h : onSendCmd exState = some (exSent.1, exSent.2) := by decide
  obtain ⟨h1, h2, h3, h4, -⟩ := c5_submit exState exSent.1 exSent.2 h
  exact ⟨h, h1, h2, h3, h4 0, h4 2⟩

/-- Counterexample for C1 as stated: `FormWin.__init__` sets
`current_input = 0` with no inertness correction, so after constructing a
form whose first field has type `fixed` the focus index rests on an inert
widget although a non-inert widget exists. -/
theorem c1_counterexample :
    (mkFormWin [exFixedField, exBoolField]).2 = 0 ∧
    dummyAt (widgetsOf (mkFormWin [exFixedField, exBoolField]).1) 0 = true ∧
    dummyAt (widgetsOf (mkFormWin [exFixedField, exBoolField]).1) 1 = false := by
  decide

/-- Counterexample for C2 as stated: in `[w, d, d, w]` (w non-inert, d inert)
with focus 0, advance moves to 3 but retreat then lands on 1 (the backward
scan of `go_to_previous_input` indexes with `current_input + jump`), not back
on 0. -/
theorem c2_counterexample :
    dummyAt [Widget.boolean "k" true, Widget.dummy, Widget.dummy, Widget.boolean "k" true] 0 = false ∧
    goToNextInput [Widget.boolean "k" true, Widget.dummy, Widget.dummy, Widget.boolean "k" true] 0 = some 3 ∧
    goToPreviousInput [Widget.boolean "k" true, Widget.dummy, Widget.dummy, Widget.boolean "k" true] 3 = some 1 := by
  decide

end DataForms
